import Mathlib

/-!
Shallow embedding of the query-parameter interpretation layer of the
school-api repository: the two Express controllers
`src/src/controllers/teacher.controller.js` and the student controller
(`src/unnamed/part_000`).  JavaScript string and number builtins used by the
controllers (`parseInt`, `toLowerCase`, `split`, `trim`, `startsWith`,
`substring`, `Math.ceil` of a division, and the `||` falsy fallback) are
modelled first; then each controller's handler logic is transcribed.

Caveats of the embedding, stated once here: JavaScript numbers are IEEE
doubles, exact on integers below 2^53; we model them as unbounded `Int`,
which agrees with the source on every input whose parsed magnitude stays
below 2^53.  `toLowerCase`/`trim`/whitespace sets are modelled on their
ASCII behaviour, which covers every token the controllers compare against.
-/

namespace SchoolApi

/-- Decimal digit value of a character, `none` for a non-digit.
Models the digit test of JS `parseInt` with radix 10. -/
def decDigitVal (c : Char) : Option Nat :=
  if c.isDigit then some (c.toNat - 48) else none

/-- Hexadecimal digit value of a character, `none` for a non-digit.
Models the digit test of JS `parseInt` with radix 16. -/
def hexDigitVal (c : Char) : Option Nat :=
  if c.isDigit then some (c.toNat - 48)
  else if 'a' ≤ c ∧ c ≤ 'f' then some (c.toNat - 87)
  else if 'A' ≤ c ∧ c ≤ 'F' then some (c.toNat - 55)
  else none

/-- Accumulate the value of the longest run of leading digits. -/
def parseDigitsAux (f : Char → Option Nat) (base : Nat) : List Char → Nat → Nat
  | [], acc => acc
  | c :: cs, acc =>
    match f c with
    | some d => parseDigitsAux f base cs (acc * base + d)
    | none => acc

/-- Value of the leading digit run, `none` when the first character is not a
digit (JS `parseInt` yields `NaN` in that case). -/
def parseDigitsLead (f : Char → Option Nat) (base : Nat) (cs : List Char) : Option Nat :=
  match cs with
  | [] => none
  | c :: _ =>
    match f c with
    | some _ => some (parseDigitsAux f base cs 0)
    | none => none

/-- Model of JS `parseInt(s)` with no radix argument: skip leading
whitespace, read an optional sign, honour a `0x`/`0X` hexadecimal marker,
read the longest run of leading digits and ignore the rest; `none` models a
`NaN` result. -/
def jsParseInt (s : String) : Option Int :=
  let cs := s.data.dropWhile Char.isWhitespace
  let sgn : Int :=
    match cs with
    | '-' :: _ => -1
    | _ => 1
  let cs1 :=
    match cs with
    | '-' :: t => t
    | '+' :: t => t
    | t => t
  match cs1 with
  | '0' :: 'x' :: t => (parseDigitsLead hexDigitVal 16 t).map (fun n => sgn * (n : Int))
  | '0' :: 'X' :: t => (parseDigitsLead hexDigitVal 16 t).map (fun n => sgn * (n : Int))
  | t => (parseDigitsLead decDigitVal 10 t).map (fun n => sgn * (n : Int))

/-- `parseInt(req.query.limit) || 10` (teacher controller line 74, student
controller line 79): a `NaN` (absent parameter or failed parse) and the
falsy number `0` both fall back to the default `10`. -/
def resolvedLimit (limitq : Option String) : Int :=
  match limitq.bind jsParseInt with
  | none => 10
  | some n => if n = 0 then 10 else n

/-- `parseInt(req.query.page) || 1` (teacher controller line 76, student
controller line 81): a `NaN` and the falsy number `0` both fall back to the
default `1`. -/
def resolvedPage (pageq : Option String) : Int :=
  match pageq.bind jsParseInt with
  | none => 1
  | some n => if n = 0 then 1 else n

/-- Model of JS `String.prototype.toLowerCase` on the ASCII range. -/
def jsToLower (s : String) : String :=
  ⟨s.data.map Char.toLower⟩

/-- Split a character list at every occurrence of `sep`; the result always
has one more group than there are separators, matching JS
`String.prototype.split(",")` (so `""` splits to `[""]`). -/
def splitChars (sep : Char) : List Char → List (List Char)
  | [] => [[]]
  | c :: cs =>
    match splitChars sep cs with
    | [] => [[c]]
    | g :: gs => if c = sep then [] :: g :: gs else (c :: g) :: gs

/-- Model of JS `String.prototype.split` with a one-character separator. -/
def jsSplit (sep : Char) (s : String) : List String :=
  (splitChars sep s.data).map (fun g => ⟨g⟩)

/-- Model of JS `String.prototype.trim` on the ASCII whitespace set. -/
def jsTrim (s : String) : String :=
  ⟨((s.data.dropWhile Char.isWhitespace).reverse.dropWhile Char.isWhitespace).reverse⟩

/-- Model of JS `s.startsWith(p)`. -/
def jsStartsWith (s p : String) : Bool :=
  List.isPrefixOf p.data s.data

/-- Model of JS `s.substring(n)`: the characters from index `n` on. -/
def jsSubstringFrom (n : Nat) (s : String) : String :=
  ⟨s.data.drop n⟩

/-- Model of JS `Math.ceil(t / l)` for integer `t`, `l` with `l ≠ 0`,
via `ceil(x) = -floor(-x)`.  (The controllers never divide by zero: the
resolved limit is never `0` because `0` falls back to the default.) -/
def jsCeilDiv (t l : Int) : Int :=
  -((-t).fdiv l)

/-- The raw query parameters of a list request, each absent or a string,
as Express presents them to the controllers. -/
structure ReqQuery where
  page : Option String
  limit : Option String
  sortby : Option String
  populate : Option String
deriving DecidableEq, Repr

/-- The empty query: no parameter supplied. -/
def noQuery : ReqQuery := ⟨none, none, none, none⟩

/-- `req.query.sortby || 'name'` followed by the `startsWith('Desc')`
check (teacher controller lines 81-83 and 106-109, student controller
lines 86-93; the two blocks are textually identical): the resolved
`(sortField, sortOrder)` pair. -/
def resolveSort (sortbyq : Option String) : String × String :=
  let sortby : String :=
    match sortbyq with
    | none => "name"
    | some s => if s = "" then "name" else s
  if jsStartsWith sortby "Desc" then (jsSubstringFrom 4 sortby, "DESC")
  else (sortby, "ASC")

/-- `req.query.populate?.toLowerCase().split(',').map(p => p.trim()) || []`
(teacher controller lines 86 and 156, student controller lines 96 and 157):
the token list of the populate parameter. -/
def populateTokens (populateq : Option String) : List String :=
  match populateq with
  | none => []
  | some s => (jsSplit ',' (jsToLower s)).map jsTrim

/-- The three ORM models the controllers reference. -/
inductive ModelName
  | student
  | teacher
  | course
deriving DecidableEq, Repr

/-- One nested (second-level) include entry: a model, and optionally a
`through: { attributes: [] }` join-table clause (`some []` when present). -/
structure NestedInclude where
  model : ModelName
  through : Option (List String)
deriving DecidableEq, Repr

/-- One top-level include entry of a `findAll`/`findByPk` call: a model,
an optional `through: { attributes: [] }` clause, and the nested includes. -/
structure IncludeSpec where
  model : ModelName
  through : Option (List String)
  nested : List NestedInclude
deriving DecidableEq, Repr

/-- Include construction of `getAllStudents` (student controller lines
96-110): Course (join attributes excluded) when a course token is present,
with Teacher nested inside when a teacher token is also present. -/
def studentListIncludes (populateq : Option String) : List IncludeSpec :=
  let populate := populateTokens populateq
  if populate.contains "courses" || populate.contains "course" then
    let nested :=
      if populate.contains "teacher" then [⟨ModelName.teacher, none⟩] else []
    [⟨ModelName.course, some [], nested⟩]
  else []

/-- Include construction of `getStudentById` (student controller lines
157-171), transcribed separately from its own handler body. -/
def studentByIdIncludes (populateq : Option String) : List IncludeSpec :=
  let populate := populateTokens populateq
  if populate.contains "courses" || populate.contains "course" then
    let nested :=
      if populate.contains "teacher" then [⟨ModelName.teacher, none⟩] else []
    [⟨ModelName.course, some [], nested⟩]
  else []

/-- Include construction of `getAllTeachers` (teacher controller lines
86-104): Course when a course token is present, with Student (join
attributes excluded) nested inside when a student token is also present. -/
def teacherListIncludes (populateq : Option String) : List IncludeSpec :=
  let populate := populateTokens populateq
  if populate.contains "courses" || populate.contains "course" then
    let nested :=
      if populate.contains "students" || populate.contains "student" then
        [⟨ModelName.student, some []⟩]
      else []
    [⟨ModelName.course, none, nested⟩]
  else []

/-- Include construction of `getTeacherById` (teacher controller lines
156-174), transcribed separately from its own handler body. -/
def teacherByIdIncludes (populateq : Option String) : List IncludeSpec :=
  let populate := populateTokens populateq
  if populate.contains "courses" || populate.contains "course" then
    let nested :=
      if populate.contains "students" || populate.contains "student" then
        [⟨ModelName.student, some []⟩]
      else []
    [⟨ModelName.course, none, nested⟩]
  else []

/-- The argument object the controllers pass to the persistence layer's
`findAll` (the `include` key is named `includes` here because `include` is
reserved in Lean). -/
structure FindAllArgs where
  limit : Int
  offset : Int
  order : String × String
  includes : List IncludeSpec
deriving DecidableEq, Repr

/-- The `findAll` argument object built by `getAllStudents` (student
controller lines 79-118): resolved limit, `offset = (page - 1) * limit`,
resolved sort pair, and the include graph. -/
def getAllStudentsArgs (q : ReqQuery) : FindAllArgs :=
  let limit := resolvedLimit q.limit
  let page := resolvedPage q.page
  ⟨limit, (page - 1) * limit, resolveSort q.sortby, studentListIncludes q.populate⟩

/-- The `findAll` argument object built by `getAllTeachers` (teacher
controller lines 74-117). -/
def getAllTeachersArgs (q : ReqQuery) : FindAllArgs :=
  let limit := resolvedLimit q.limit
  let page := resolvedPage q.page
  ⟨limit, (page - 1) * limit, resolveSort q.sortby, teacherListIncludes q.populate⟩

/-- A stored record of either entity; only the primary key and one payload
field matter to the properties below. -/
structure Entity where
  id : Int
  name : String
deriving DecidableEq, Repr

/-- Modelled from the spec: the external persistence layer's per-entity
`count` (the ORM is out of scope of the repository's sources); it returns
the number of stored records. -/
def dbCount (store : List Entity) : Int :=
  store.length

/-- Modelled from the spec: the external persistence layer's `findByPk`;
it returns the stored record with the given primary key, if any. -/
def dbFindByPk (store : List Entity) (i : Int) : Option Entity :=
  store.find? (fun r => r.id == i)

/-- Modelled from the spec: the external persistence layer's `findAll`
with a pagination window.  Sorting by `sortField`/`sortOrder` and relation
inclusion are performed by the external store and are not modelled; records
are taken in stored order and negative window values are clamped at zero by
`Int.toNat` (the theorems below rely on this model only through the
empty-store case, where every window yields `[]`). -/
def dbFindAll (store : List Entity) (args : FindAllArgs) : List Entity :=
  (store.drop args.offset.toNat).take args.limit.toNat

/-- The JSON body of a 200 list response: the `meta` object as a key-value
list of its literal field names, and the `data` array. -/
structure ListResponse where
  status : Nat
  meta : List (String × Int)
  data : List Entity
deriving DecidableEq, Repr

/-- The 200 response of `getAllStudents` (student controller lines
112-126): meta keys `totalItems`, `page`, `totalPages` (with
`Math.ceil(total / limit)`), and the `findAll` result as `data`. -/
def getAllStudents (store : List Entity) (q : ReqQuery) : ListResponse :=
  let args := getAllStudentsArgs q
  let total := dbCount store
  ⟨200,
   [("totalItems", total), ("page", resolvedPage q.page),
    ("totalPages", jsCeilDiv total args.limit)],
   dbFindAll store args⟩

/-- The 200 response of `getAllTeachers` (teacher controller lines
111-125): the first meta key is spelled `totalItem` in the source
(line 120), unlike the student controller's `totalItems`. -/
def getAllTeachers (store : List Entity) (q : ReqQuery) : ListResponse :=
  let args := getAllTeachersArgs q
  let total := dbCount store
  ⟨200,
   [("totalItem", total), ("page", resolvedPage q.page),
    ("totalPages", jsCeilDiv total args.limit)],
   dbFindAll store args⟩

/-- The JSON body of a by-id response: either a record or a `{message}`
object. -/
inductive RespBody
  | record (r : Entity)
  | message (m : String)
deriving DecidableEq, Repr

/-- An HTTP response of the by-id handlers: status code and body. -/
structure Response where
  status : Nat
  body : RespBody
deriving DecidableEq, Repr

/-- `getStudentById` (student controller lines 155-180): 404 with
`{message: 'Not found'}` when `findByPk` yields nothing, else 200 with the
record.  The include graph it builds is `studentByIdIncludes q.populate`;
it affects only the relations attached to the returned record, which the
entity model does not carry. -/
def getStudentById (store : List Entity) (i : Int) (_q : ReqQuery) : Response :=
  match dbFindByPk store i with
  | none => ⟨404, RespBody.message "Not found"⟩
  | some r => ⟨200, RespBody.record r⟩

/-- `getTeacherById` (teacher controller lines 154-183), same shape. -/
def getTeacherById (store : List Entity) (i : Int) (_q : ReqQuery) : Response :=
  match dbFindByPk store i with
  | none => ⟨404, RespBody.message "Not found"⟩
  | some r => ⟨200, RespBody.record r⟩

/-- `updateStudent` (student controller lines 202-211): 404 when the id is
absent, else the record is updated in place and returned with 200.  The
request body's field merge is abstracted as a function on records
(modelled from the spec: the ORM's `update` is external). -/
def updateStudent (store : List Entity) (i : Int) (p : Entity → Entity) :
    Response × List Entity :=
  match dbFindByPk store i with
  | none => (⟨404, RespBody.message "Not found"⟩, store)
  | some r => (⟨200, RespBody.record (p r)⟩,
               store.map (fun x => if x.id == i then p x else x))

/-- `updateTeacher` (teacher controller lines 211-220), same shape. -/
def updateTeacher (store : List Entity) (i : Int) (p : Entity → Entity) :
    Response × List Entity :=
  match dbFindByPk store i with
  | none => (⟨404, RespBody.message "Not found"⟩, store)
  | some r => (⟨200, RespBody.record (p r)⟩,
               store.map (fun x => if x.id == i then p x else x))

/-- `deleteStudent` (student controller lines 228-237): 404 when the id is
absent, else the record is destroyed and 200 with `{message: 'Deleted'}`
is returned (modelled from the spec: the ORM's `destroy` removes the
found record from the store). -/
def deleteStudent (store : List Entity) (i : Int) : Response × List Entity :=
  match dbFindByPk store i with
  | none => (⟨404, RespBody.message "Not found"⟩, store)
  | some _ => (⟨200, RespBody.message "Deleted"⟩,
               store.filter (fun x => x.id != i))

/-- `deleteTeacher` (teacher controller lines 237-246), same shape. -/
def deleteTeacher (store : List Entity) (i : Int) : Response × List Entity :=
  match dbFindByPk store i with
  | none => (⟨404, RespBody.message "Not found"⟩, store)
  | some _ => (⟨200, RespBody.message "Deleted"⟩,
               store.filter (fun x => x.id != i))

/-- After removing every record with primary key `i`, a `findByPk` for `i`
finds nothing. -/
lemma dbFindByPk_filter_ne (store : List Entity) (i : Int) :
    dbFindByPk (store.filter (fun x => x.id != i)) i = none := by
  apply List.find?_eq_none.mpr
  intro x hx
  have hne := (List.mem_filter.mp hx).2
  simp only [bne_iff_ne, ne_eq] at hne
  simp [hne]

/-- Dividing zero by anything in the `Math.ceil` model yields zero. -/
lemma jsCeilDiv_zero (l : Int) : jsCeilDiv 0 l = 0 := by
  simp [jsCeilDiv, Int.zero_fdiv]

/-- Claim C1: for every list request on Students or Teachers, an absent or
unparseable `limit` resolves to 10, and — independently — an absent or
unparseable `page` resolves to 1 (the `page` meta field of either response
reports 1), whatever the other parameter is. -/
theorem claim1_default_pagination (q : ReqQuery) :
    ((q.limit = none ∨ ∃ s, q.limit = some s ∧ jsParseInt s = none) →
      (getAllStudentsArgs q).limit = 10 ∧ (getAllTeachersArgs q).limit = 10) ∧
    ((q.page = none ∨ ∃ s, q.page = some s ∧ jsParseInt s = none) →
      ∀ store, (getAllStudents store q).meta.lookup "page" = some 1 ∧
        (getAllTeachers store q).meta.lookup "page" = some 1) := by
  constructor
  · intro hl
    have hl' : resolvedLimit q.limit = 10 := by
      rcases hl with h | ⟨s, hs, hn⟩
      · simp [resolvedLimit, h]
      · simp [resolvedLimit, hs, hn]
    exact ⟨by simp [getAllStudentsArgs, hl'], by simp [getAllTeachersArgs, hl']⟩
  · intro hp
    have hp' : resolvedPage q.page = 1 := by
      rcases hp with h | ⟨s, hs, hn⟩
      · simp [resolvedPage, h]
      · simp [resolvedPage, hs, hn]
    intro store
    constructor
    · simp [getAllStudents, List.lookup, hp']
    · simp [getAllTeachers, List.lookup, hp']

/-- Witness for C1 on mixed inputs: `limit="abc"` with the perfectly good
`page="3"` still resolves the limit to 10, and `page=""` with the good
`limit="5"` still reports page 1. -/
theorem claim1_default_pagination_witness :
    (getAllStudentsArgs ⟨some "3", some "abc", none, none⟩).limit = 10 ∧
    (getAllTeachersArgs ⟨some "3", some "abc", none, none⟩).limit = 10 ∧
    (getAllStudents [] ⟨some "", some "5", none, none⟩).meta.lookup "page" = some 1 ∧
    (getAllTeachers [] ⟨some "", some "5", none, none⟩).meta.lookup "page" = some 1 := by
  have h1 := (claim1_default_pagination ⟨some "3", some "abc", none, none⟩).1
    (Or.inr ⟨"abc", rfl, by decide⟩)
  have h2 := (claim1_default_pagination ⟨some "", some "5", none, none⟩).2
    (Or.inr ⟨"", rfl, by decide⟩)
  exact ⟨h1.1, h1.2, (h2 []).1, (h2 []).2⟩

/-- Claim C2: when `page` parses to `p ≥ 1` and `limit` parses to `l ≥ 1`,
both list handlers pass `offset = (p - 1) * l` to `findAll`. -/
theorem claim2_offset (q : ReqQuery) (sp sl : String) (p l : Int)
    (hqp : q.page = some sp) (hql : q.limit = some sl)
    (hp : jsParseInt sp = some p) (hl : jsParseInt sl = some l)
    (hp1 : 1 ≤ p) (hl1 : 1 ≤ l) :
    (getAllStudentsArgs q).offset = (p - 1) * l ∧
    (getAllTeachersArgs q).offset = (p - 1) * l := by
  have hrl : resolvedLimit q.limit = l := by
    simp [resolvedLimit, hql, hl]
    omega
  have hrp : resolvedPage q.page = p := by
    simp [resolvedPage, hqp, hp]
    omega
  constructor
  · simp [getAllStudentsArgs, hrl, hrp]
  · simp [getAllTeachersArgs, hrl, hrp]

/-- Witness for C2 at `page="3"`, `limit="5"`: offset 10. -/
theorem claim2_offset_witness :
    (getAllStudentsArgs ⟨some "3", some "5", none, none⟩).offset = 10 := by
  have h := claim2_offset ⟨some "3", some "5", none, none⟩ "3" "5" 3 5 rfl rfl
    (by decide) (by decide) (by decide) (by decide)
  simpa using h.1

/-- Claim C3 counterexample: for the empty-string `sortby` value the claim
predicts the verbatim sort field `""` with ASC, but the code's `|| 'name'`
fallback treats `""` as falsy, so the resolved pair is `("name", "ASC")`,
not `("", "ASC")`. -/
theorem claim3_counterexample :
    (getAllStudentsArgs ⟨none, none, some "", none⟩).order = ("name", "ASC") ∧
    ¬ (getAllStudentsArgs ⟨none, none, some "", none⟩).order = ("", "ASC") := by
  constructor
  · rfl
  · decide

/-- Claim C3 (amended): an absent or empty `sortby` resolves to
`("name", ASC)`; a non-empty value starting with `"Desc"` has that
4-character prefix stripped and sorts DESC; any other non-empty value is
used verbatim with ASC.  `"DescCreatedAt"` gives `("CreatedAt", DESC)` and
`"Name"` gives `("Name", ASC)`. -/
theorem claim3_sort_resolution (q : ReqQuery) :
    ((q.sortby = none ∨ q.sortby = some "") →
      (getAllStudentsArgs q).order = ("name", "ASC") ∧
      (getAllTeachersArgs q).order = ("name", "ASC")) ∧
    (∀ s, q.sortby = some s → ¬ s = "" → jsStartsWith s "Desc" = true →
      (getAllStudentsArgs q).order = (jsSubstringFrom 4 s, "DESC") ∧
      (getAllTeachersArgs q).order = (jsSubstringFrom 4 s, "DESC")) ∧
    (∀ s, q.sortby = some s → ¬ s = "" → jsStartsWith s "Desc" = false →
      (getAllStudentsArgs q).order = (s, "ASC") ∧
      (getAllTeachersArgs q).order = (s, "ASC")) ∧
    (getAllStudentsArgs ⟨none, none, some "DescCreatedAt", none⟩).order = ("CreatedAt", "DESC") ∧
    (getAllStudentsArgs ⟨none, none, some "Name", none⟩).order = ("Name", "ASC") := by
  refine ⟨?_, ?_, ?_, by decide, by decide⟩
  · have hnd : jsStartsWith "name" "Desc" = false := by decide
    rintro (h | h) <;>
      exact ⟨by simp [getAllStudentsArgs, resolveSort, h, hnd],
             by simp [getAllTeachersArgs, resolveSort, h, hnd]⟩
  · intro s hq hne hdesc
    exact ⟨by simp [getAllStudentsArgs, resolveSort, hq, hne, hdesc],
           by simp [getAllTeachersArgs, resolveSort, hq, hne, hdesc]⟩
  · intro s hq hne hdesc
    exact ⟨by simp [getAllStudentsArgs, resolveSort, hq, hne, hdesc],
           by simp [getAllTeachersArgs, resolveSort, hq, hne, hdesc]⟩

/-- Witness for C3 at `sortby="DescName"`: field `"Name"`, order DESC. -/
theorem claim3_sort_resolution_witness :
    (getAllStudentsArgs ⟨none, none, some "DescName", none⟩).order = ("Name", "DESC") := by
  have h := (claim3_sort_resolution ⟨none, none, some "DescName", none⟩).2.1
    "DescName" rfl (by decide) (by decide)
  exact h.1.trans (by decide)

/-- Claim C4: on Students, a course/courses token puts the Course relation
(join attributes excluded) in the include graph, with Teacher nested inside
exactly when a teacher token is also present; `"course, teacher"` yields
Course with nested Teacher, `"Course"` alone yields Course only. -/
theorem claim4_student_populate (pq : Option String) :
    (((populateTokens pq).contains "course" = true ∨
      (populateTokens pq).contains "courses" = true) →
      (((populateTokens pq).contains "teacher" = true →
        studentListIncludes pq =
          [⟨ModelName.course, some [], [⟨ModelName.teacher, none⟩]⟩]) ∧
       ((populateTokens pq).contains "teacher" = false →
        studentListIncludes pq = [⟨ModelName.course, some [], []⟩]))) ∧
    studentListIncludes (some "course, teacher") =
      [⟨ModelName.course, some [], [⟨ModelName.teacher, none⟩]⟩] ∧
    studentListIncludes (some "Course") = [⟨ModelName.course, some [], []⟩] := by
  refine ⟨?_, by decide, by decide⟩
  intro h
  have h' : "courses" ∈ populateTokens pq ∨ "course" ∈ populateTokens pq := by
    rcases h with h | h
    · exact Or.inr (by simpa using h)
    · exact Or.inl (by simpa using h)
  constructor
  · intro ht
    have ht' : "teacher" ∈ populateTokens pq := by simpa using ht
    simp [studentListIncludes, h', ht']
  · intro ht
    have ht' : "teacher" ∉ populateTokens pq := by simpa using ht
    simp [studentListIncludes, h', ht']

/-- Witness for C4 at `populate="course, teacher"`. -/
theorem claim4_student_populate_witness :
    studentListIncludes (some "course, teacher") =
      [⟨ModelName.course, some [], [⟨ModelName.teacher, none⟩]⟩] := by
  have h := (claim4_student_populate (some "course, teacher")).1
  exact (h (Or.inl (by decide))).1 (by decide)

/-- Claim C5: on Teachers, a student/students token without any
course/courses token produces an empty include graph. -/
theorem claim5_teacher_orphan_student (pq : Option String)
    (_hs : (populateTokens pq).contains "student" = true ∨
           (populateTokens pq).contains "students" = true)
    (hc : (populateTokens pq).contains "course" = false)
    (hcs : (populateTokens pq).contains "courses" = false) :
    teacherListIncludes pq = [] := by
  have hc' : "course" ∉ populateTokens pq := by simpa using hc
  have hcs' : "courses" ∉ populateTokens pq := by simpa using hcs
  simp [teacherListIncludes, hc', hcs']

/-- Witness for C5 at `populate="student"`. -/
theorem claim5_teacher_orphan_student_witness :
    teacherListIncludes (some "student") = [] :=
  claim5_teacher_orphan_student (some "student")
    (Or.inl (by decide)) (by decide) (by decide)

/-- Claim C6 counterexample: the claim names `page=0` as a value used
as-is, which would make the offset `(0 - 1) * 7 = -7`; the code's `|| 1`
fallback treats the parsed `0` as falsy, resolves the page to 1, and
produces offset 0. -/
theorem claim6_counterexample :
    jsParseInt "0" = some 0 ∧
    (getAllStudentsArgs ⟨some "0", some "7", none, none⟩).offset = 0 ∧
    ¬ (getAllStudentsArgs ⟨some "0", some "7", none, none⟩).offset = (0 - 1) * 7 := by
  refine ⟨by decide, by decide, by decide⟩

/-- Claim C6 (amended): strictly negative parsed `page` or `limit` values
are used as-is by both list handlers, so the offset `(page - 1) * limit`
can go negative (for example `page="-3"`, `limit="5"` gives offset -20);
`page=0`, however, falls back to the default page 1 because the fallback
treats the number 0 as falsy. -/
theorem claim6_negative_pagination (sp sl : String) (p l : Int)
    (hp : jsParseInt sp = some p) (hl : jsParseInt sl = some l)
    (hpn : p < 0) (hln : l < 0) :
    resolvedPage (some sp) = p ∧ resolvedLimit (some sl) = l ∧
    (getAllStudentsArgs ⟨some sp, some sl, none, none⟩).offset = (p - 1) * l ∧
    (getAllTeachersArgs ⟨some sp, some sl, none, none⟩).offset = (p - 1) * l ∧
    (getAllStudentsArgs ⟨some "-3", some "5", none, none⟩).offset = -20 ∧
    (getAllStudentsArgs ⟨some "-3", some "5", none, none⟩).offset < 0 ∧
    (getAllTeachersArgs ⟨some "2", some "-5", none, none⟩).offset = -5 ∧
    (getAllTeachersArgs ⟨some "2", some "-5", none, none⟩).offset < 0 ∧
    resolvedPage (some "0") = 1 := by
  have hrp : resolvedPage (some sp) = p := by
    simp [resolvedPage, hp]
    omega
  have hrl : resolvedLimit (some sl) = l := by
    simp [resolvedLimit, hl]
    omega
  refine ⟨hrp, hrl, ?_, ?_, by decide, by decide, by decide, by decide, by decide⟩
  · simp [getAllStudentsArgs, hrp, hrl]
  · simp [getAllTeachersArgs, hrp, hrl]

/-- Witness for C6 at `page="-3"`, `limit="-5"`. -/
theorem claim6_negative_pagination_witness :
    (getAllStudentsArgs ⟨some "-3", some "-5", none, none⟩).offset = 20 := by
  have h := claim6_negative_pagination "-3" "-5" (-3) (-5)
    (by decide) (by decide) (by decide) (by decide)
  simpa using h.2.2.1

/-- Claim C7 counterexample: on an empty Teacher store the claim predicts
`meta.totalItems = 0`, but the teacher controller spells the key
`totalItem` (source line 120), so a `totalItems` lookup finds nothing. -/
theorem claim7_counterexample :
    ¬ ((getAllTeachers [] noQuery).meta.lookup "totalItems" = some 0) := by
  decide

/-- Claim C7 (amended): a list request against an empty store returns a
200 response with total count 0, `totalPages = 0` and `data = []` for both
entities; the Student response reports the count under `totalItems`, the
Teacher response under the key `totalItem`. -/
theorem claim7_empty_store_list (q : ReqQuery) :
    (getAllStudents [] q).status = 200 ∧
    (getAllStudents [] q).meta.lookup "totalItems" = some 0 ∧
    (getAllStudents [] q).meta.lookup "totalPages" = some 0 ∧
    (getAllStudents [] q).data = [] ∧
    (getAllTeachers [] q).status = 200 ∧
    (getAllTeachers [] q).meta.lookup "totalItem" = some 0 ∧
    (getAllTeachers [] q).meta.lookup "totalPages" = some 0 ∧
    (getAllTeachers [] q).data = [] := by
  refine ⟨rfl, rfl, ?_, ?_, rfl, rfl, ?_, ?_⟩
  · simp [getAllStudents, dbCount, List.lookup, jsCeilDiv_zero]
  · simp [getAllStudents, dbFindAll]
  · simp [getAllTeachers, dbCount, List.lookup, jsCeilDiv_zero]
  · simp [getAllTeachers, dbFindAll]

/-- Claim C8: for both entities, the by-id handlers (get, update, delete)
answer 404 with `{message: "Not found"}` when no record has the requested
id, and 200 when one does. -/
theorem claim8_by_id_status (store : List Entity) (i : Int) (q : ReqQuery)
    (p : Entity → Entity) :
    (dbFindByPk store i = none →
      getStudentById store i q = ⟨404, RespBody.message "Not found"⟩ ∧
      getTeacherById store i q = ⟨404, RespBody.message "Not found"⟩ ∧
      (updateStudent store i p).1 = ⟨404, RespBody.message "Not found"⟩ ∧
      (updateTeacher store i p).1 = ⟨404, RespBody.message "Not found"⟩ ∧
      (deleteStudent store i).1 = ⟨404, RespBody.message "Not found"⟩ ∧
      (deleteTeacher store i).1 = ⟨404, RespBody.message "Not found"⟩) ∧
    (∀ r, dbFindByPk store i = some r →
      (getStudentById store i q).status = 200 ∧
      (getTeacherById store i q).status = 200 ∧
      (updateStudent store i p).1.status = 200 ∧
      (updateTeacher store i p).1.status = 200 ∧
      (deleteStudent store i).1.status = 200 ∧
      (deleteTeacher store i).1.status = 200) := by
  constructor
  · intro h
    refine ⟨?_, ?_, ?_, ?_, ?_, ?_⟩ <;>
      simp [getStudentById, getTeacherById, updateStudent, updateTeacher,
            deleteStudent, deleteTeacher, h]
  · intro r h
    refine ⟨?_, ?_, ?_, ?_, ?_, ?_⟩ <;>
      simp [getStudentById, getTeacherById, updateStudent, updateTeacher,
            deleteStudent, deleteTeacher, h]

/-- Witness for C8 on the one-record store `[⟨1, "a"⟩]`: id 2 is absent
(404), id 1 is present (200). -/
theorem claim8_by_id_status_witness :
    getStudentById [⟨1, "a"⟩] 2 noQuery = ⟨404, RespBody.message "Not found"⟩ ∧
    getTeacherById [⟨1, "a"⟩] 2 noQuery = ⟨404, RespBody.message "Not found"⟩ ∧
    (getStudentById [⟨1, "a"⟩] 1 noQuery).status = 200 ∧
    (deleteTeacher [⟨1, "a"⟩] 1).1.status = 200 := by
  have habs := (claim8_by_id_status [⟨1, "a"⟩] 2 noQuery id).1 (by decide)
  have hpres := (claim8_by_id_status [⟨1, "a"⟩] 1 noQuery id).2 ⟨1, "a"⟩ (by decide)
  exact ⟨habs.1, habs.2.1, hpres.1, hpres.2.2.2.2.2⟩

/-- Claim C9: deleting an existing id twice, for either entity: the first
call answers 200 `Deleted` and removes the record, the second answers 404
`Not found` and leaves the store exactly as after the first call. -/
theorem claim9_delete_twice (store : List Entity) (i : Int) (r : Entity)
    (h : dbFindByPk store i = some r) :
    (deleteStudent store i).1 = ⟨200, RespBody.message "Deleted"⟩ ∧
    dbFindByPk (deleteStudent store i).2 i = none ∧
    (deleteStudent (deleteStudent store i).2 i).1 = ⟨404, RespBody.message "Not found"⟩ ∧
    (deleteStudent (deleteStudent store i).2 i).2 = (deleteStudent store i).2 ∧
    (deleteTeacher store i).1 = ⟨200, RespBody.message "Deleted"⟩ ∧
    dbFindByPk (deleteTeacher store i).2 i = none ∧
    (deleteTeacher (deleteTeacher store i).2 i).1 = ⟨404, RespBody.message "Not found"⟩ ∧
    (deleteTeacher (deleteTeacher store i).2 i).2 = (deleteTeacher store i).2 := by
  have hs2 : (deleteStudent store i).2 = store.filter (fun x => x.id != i) := by
    simp [deleteStudent, h]
  have ht2 : (deleteTeacher store i).2 = store.filter (fun x => x.id != i) := by
    simp [deleteTeacher, h]
  have hgone : dbFindByPk (store.filter (fun x => x.id != i)) i = none :=
    dbFindByPk_filter_ne store i
  refine ⟨by simp [deleteStudent, h], by rw [hs2]; exact hgone, ?_, ?_,
          by simp [deleteTeacher, h], by rw [ht2]; exact hgone, ?_, ?_⟩
  · rw [hs2]; simp [deleteStudent, hgone]
  · rw [hs2]; simp [deleteStudent, hgone]
  · rw [ht2]; simp [deleteTeacher, hgone]
  · rw [ht2]; simp [deleteTeacher, hgone]

/-- Witness for C9 on the store `[⟨1, "a"⟩]` with id 1. -/
theorem claim9_delete_twice_witness :
    (deleteStudent [⟨1, "a"⟩] 1).1 = ⟨200, RespBody.message "Deleted"⟩ ∧
    (deleteStudent (deleteStudent [⟨1, "a"⟩] 1).2 1).1 =
      ⟨404, RespBody.message "Not found"⟩ := by
  have h := claim9_delete_twice [⟨1, "a"⟩] 1 ⟨1, "a"⟩ (by decide)
  exact ⟨h.1, h.2.2.1⟩

/-- Claim C10: for every populate value (absent included) and each entity,
the include graph built by the list handler equals, relation for relation
with identical nesting and join-attribute exclusion, the include graph
built by the corresponding by-id handler. -/
theorem claim10_include_refinement (pq : Option String) :
    studentListIncludes pq = studentByIdIncludes pq ∧
    teacherListIncludes pq = teacherByIdIncludes pq :=
  ⟨rfl, rfl⟩

end SchoolApi
